import Mathlib

/-!
# Weight-tracker estimation engine: formal model

A shallow embedding of the calculation module of the weight-tracker
application (the `Calculations` IIFE: BMR, TDEE, activity-level inference,
exercise calories, weight prediction, loss rate, time-to-goal).

JavaScript numbers are modelled as rationals (`ℚ`); a number argument that
may be `null`/`undefined` is an `Option ℚ`.  `Math.round` rounds half
toward +∞ and is modelled by `jsRound`.  JavaScript objects returned by the
engine are modelled as structures whose possibly-absent fields are
`Option`-valued (`none` = the key is absent or holds `null`/`undefined`).
-/

namespace WeightTracker

/-- JavaScript `Math.round`: rounds half toward positive infinity
(`Math.round (-0.5) = 0`). -/
def jsRound (q : ℚ) : ℤ := ⌊q + 1/2⌋

/-- The idiom `Math.round (x * 10) / 10`: round to one decimal place. -/
def round1 (q : ℚ) : ℚ := (jsRound (q * 10) : ℚ) / 10

/-- JavaScript falsiness of a number-or-missing value: `0`, `null` and
`undefined` are falsy, every other number is truthy. -/
def falsy : Option ℚ → Bool
  | none => true
  | some x => decide (x = 0)

/-- A day's `workout` record: `{completed, exercises}` where `exercises` is
the array of selected exercise-group tags (`workout.exercises || []`). -/
structure Workout where
  completed : Bool
  exercises : List String
deriving DecidableEq

/-- A day's `running` record: `{completed, distance}`; `distance` (km) may be
absent (`running.distance || 0` in the source). -/
structure Running where
  completed : Bool
  distance : Option ℚ
deriving DecidableEq

/-- A day's `calories` record; only the derived `total` is read by the
engine (`entry.calories?.total || 0`). -/
structure Calories where
  total : Option ℚ
deriving DecidableEq

/-- One daily entry as consumed by the engine; each sub-record may be
absent. -/
structure DailyEntry where
  calories : Option Calories
  workout : Option Workout
  running : Option Running
deriving DecidableEq

/-- The user profile fields read by the engine: `height` (cm), `age`
(years), `gender`. -/
structure Profile where
  height : Option ℚ
  age : Option ℚ
  gender : String
deriving DecidableEq

/-- `entry.workout && entry.workout.completed`. -/
def workoutCompleted (e : DailyEntry) : Bool :=
  match e.workout with
  | some w => w.completed
  | none => false

/-- `entry.running && entry.running.completed`. -/
def runningCompleted (e : DailyEntry) : Bool :=
  match e.running with
  | some r => r.completed
  | none => false

/-- `entry.running.distance || 0` (0 when the record or field is absent). -/
def runDistance (e : DailyEntry) : ℚ :=
  match e.running with
  | some r => r.distance.getD 0
  | none => 0

/-- `entry.workout.exercises?.length || 0`. -/
def exerciseCount (e : DailyEntry) : ℕ :=
  match e.workout with
  | some w => w.exercises.length
  | none => 0

/-- `entry.calories?.total || 0`. -/
def entryTotal (e : DailyEntry) : ℚ :=
  match e.calories with
  | some c => c.total.getD 0
  | none => 0

/-- The source's `MET_VALUES` lookup table (keys to MET values);
`none` for a key not in the table. -/
def MET_VALUES (exercise : String) : Option ℚ :=
  if exercise = "bicep/tricep" then some (7/2)
  else if exercise = "shoulder" then some (7/2)
  else if exercise = "back" then some 4
  else if exercise = "chest" then some 4
  else if exercise = "booty" then some (9/2)
  else if exercise = "leg" then some (9/2)
  else if exercise = "abs" then some 3
  else if exercise = "running" then some (49/5)
  else none

/-- `WORKOUT_DURATION = 45` minutes. -/
def WORKOUT_DURATION : ℚ := 45

/-- `CALORIES_PER_KG = 7700`. -/
def CALORIES_PER_KG : ℚ := 7700

/-- `calculateBMR(weight, height, age, gender)` — Mifflin-St Jeor; returns
`null` when weight, height or age is falsy. -/
def calculateBMR (weight height age : Option ℚ) (gender : String) : Option ℚ :=
  if falsy weight || falsy height || falsy age then none
  else
    let baseCalc := 10 * weight.getD 0 + (25/4) * height.getD 0 - 5 * age.getD 0
    if gender = "female" then some (baseCalc - 161) else some (baseCalc + 5)

/-- The source's `multipliers` table inside `calculateTDEE`. -/
def activityMultipliers (activityLevel : String) : Option ℚ :=
  if activityLevel = "sedentary" then some (6/5)
  else if activityLevel = "light" then some (11/8)
  else if activityLevel = "moderate" then some (31/20)
  else if activityLevel = "active" then some (69/40)
  else if activityLevel = "veryActive" then some (19/10)
  else none

/-- `calculateTDEE(bmr, activityLevel)`: `null` when `bmr` is falsy, else
`bmr × (multipliers[activityLevel] || multipliers.sedentary)`. -/
def calculateTDEE (bmr : Option ℚ) (activityLevel : String) : Option ℚ :=
  if falsy bmr then none
  else some (bmr.getD 0 * ((activityMultipliers activityLevel).getD (6/5)))

/-- `getWeeklyActivityLevel(weeklyEntries)`: scores the week and maps the
score through fixed thresholds. -/
def getWeeklyActivityLevel (weeklyEntries : List DailyEntry) : String :=
  if weeklyEntries.length = 0 then "sedentary"
  else
    let workoutDays : ℚ := ((weeklyEntries.filter workoutCompleted).length : ℕ)
    let totalRunDistance : ℚ := ((weeklyEntries.filter runningCompleted).map runDistance).sum
    let totalExercises : ℚ := (((weeklyEntries.filter workoutCompleted).map exerciseCount).sum : ℕ)
    let score := workoutDays * 10 + totalRunDistance * 5 + totalExercises * 2
    if 100 ≤ score then "veryActive"
    else if 70 ≤ score then "active"
    else if 40 ≤ score then "moderate"
    else if 15 ≤ score then "light"
    else "sedentary"

/-- `calculateExerciseCalories(weight, exerciseData)`: strength component
(average MET of the selected tags, unknown tag defaults to 3.5, over a fixed
45-minute session) plus running component (MET 9.8 at 10 min/km), rounded
with `Math.round`; `0` when `weight` is falsy. -/
def calculateExerciseCalories (weight : Option ℚ) (exerciseData : DailyEntry) : ℤ :=
  if falsy weight then 0
  else
    let w := weight.getD 0
    let strengthCalories : ℚ :=
      match exerciseData.workout with
      | some wk =>
          if wk.completed then
            if 0 < wk.exercises.length then
              let totalMET := (wk.exercises.map (fun ex => (MET_VALUES ex).getD (7/2))).sum
              let avgMET := totalMET / wk.exercises.length
              avgMET * w * WORKOUT_DURATION / 60
            else 0
          else 0
      | none => 0
    let runningCalories : ℚ :=
      match exerciseData.running with
      | some r =>
          if r.completed then
            let distance := r.distance.getD 0
            let runTime := distance * 10
            (MET_VALUES "running").getD 0 * w * runTime / 60
          else 0
      | none => 0
    jsRound (strengthCalories + runningCalories)

/-- The object returned by `calculateAverages`: the two branches of the
source return different key sets, so the keys that appear in only one
branch are `Option`-valued. -/
structure Averages where
  avgCalories : ℤ
  avgExerciseCalories : Option ℤ
  workoutDays : ℕ
  runningDays : ℕ
  entries : Option (List DailyEntry)
deriving DecidableEq

/-- `calculateAverages(entries, days)`; the source's default argument
`days = 7` is always passed explicitly here. -/
def calculateAverages (entries : List DailyEntry) (days : ℕ) : Averages :=
  if entries.length = 0 then
    { avgCalories := 0, avgExerciseCalories := some 0,
      workoutDays := 0, runningDays := 0, entries := none }
  else
    let recentEntries := entries.take days
    let count := recentEntries.length
    let avgCalories := ((recentEntries.map entryTotal).sum) / count
    { avgCalories := jsRound avgCalories,
      avgExerciseCalories := none,
      workoutDays := (recentEntries.filter workoutCompleted).length,
      runningDays := (recentEntries.filter runningCompleted).length,
      entries := some recentEntries }

/-- The object returned by `predictWeight`.  The degenerate branch of the
source omits the keys `activityLevel` and `daysOfData` and copies the raw
`currentWeight` argument into `predictedWeight`, so those three fields are
`Option`-valued (`none` = key absent / value `undefined`). -/
structure Prediction where
  predictedWeight : Option ℚ
  dailyBalance : ℤ
  tdee : ℤ
  bmr : ℤ
  avgExerciseCalories : ℤ
  activityLevel : Option String
  confidence : ℤ
  daysOfData : Option ℕ
deriving DecidableEq

/-- The object literal returned by the early-exit branch of
`predictWeight`. -/
def zeroPrediction (currentWeight : Option ℚ) : Prediction :=
  { predictedWeight := currentWeight, dailyBalance := 0, tdee := 0, bmr := 0,
    confidence := 0, avgExerciseCalories := 0,
    activityLevel := none, daysOfData := none }

/-- `predictWeight(profile, dailyEntries, currentWeight)`.  JavaScript
coercions in the source are made explicit: `tdee + avgExerciseCalories`
coerces a `null` tdee to 0, and `Math.round(null)` is 0, hence the
`Option.getD 0` on `bmr` and `tdee`. -/
def predictWeight : Option Profile → List DailyEntry → Option ℚ → Prediction
  | none, _dailyEntries, currentWeight => zeroPrediction currentWeight
  | some p, dailyEntries, currentWeight =>
    if falsy currentWeight = true ∨ dailyEntries = [] then zeroPrediction currentWeight
    else
      let recentEntries := dailyEntries.take (min 7 dailyEntries.length)
      let averages := calculateAverages recentEntries 7
      let avgExerciseCalories : ℚ :=
        ((recentEntries.map
            (fun e => ((calculateExerciseCalories currentWeight e : ℤ) : ℚ))).sum)
          / recentEntries.length
      let bmr := calculateBMR currentWeight p.height p.age p.gender
      let activityLevel := getWeeklyActivityLevel recentEntries
      let tdee := calculateTDEE bmr activityLevel
      let dailyBalance : ℚ := (averages.avgCalories : ℚ) - (tdee.getD 0 + avgExerciseCalories)
      let dailyWeightChange := dailyBalance / CALORIES_PER_KG
      let daysAhead : ℚ := 7
      let predictedWeight := currentWeight.getD 0 + dailyWeightChange * daysAhead
      let confidence : ℚ := min ((recentEntries.length : ℚ) / 7) 1
      let dampedPrediction :=
        currentWeight.getD 0 + ((predictedWeight - currentWeight.getD 0) * confidence * (9/10))
      { predictedWeight := some (round1 dampedPrediction),
        dailyBalance := jsRound dailyBalance,
        tdee := jsRound (tdee.getD 0),
        bmr := jsRound (bmr.getD 0),
        avgExerciseCalories := jsRound avgExerciseCalories,
        activityLevel := some activityLevel,
        confidence := jsRound (confidence * 100),
        daysOfData := some recentEntries.length }

/-- A weekly weight entry as read by `calculateWeightLossRate`; `date` is
the timestamp `new Date(entry.date)` parses to. -/
structure WeightEntry where
  date : ℤ
  actualWeight : ℚ
  weekNumber : ℚ
deriving DecidableEq

/-- `sorted[0]` of the source's stable ascending sort by date: the
entry with minimal date, the earliest-listed one winning ties. -/
def firstByDate (e : WeightEntry) (rest : List WeightEntry) : WeightEntry :=
  rest.foldl (fun acc x => if x.date < acc.date then x else acc) e

/-- `sorted[sorted.length - 1]` of the stable ascending sort by date: the
entry with maximal date, the latest-listed one winning ties. -/
def lastByDate (e : WeightEntry) (rest : List WeightEntry) : WeightEntry :=
  rest.foldl (fun acc x => if acc.date ≤ x.date then x else acc) e

/-- `calculateWeightLossRate(weightEntries)`: 0 with fewer than two entries
or a zero week span, else the rounded per-week change between the first and
last entries in date order. -/
def calculateWeightLossRate : List WeightEntry → ℚ
  | [] => 0
  | [_] => 0
  | e :: rest =>
    let first := firstByDate e rest
    let last := lastByDate e rest
    let weightChange := last.actualWeight - first.actualWeight
    let weeksPassed := last.weekNumber - first.weekNumber
    if weeksPassed = 0 then 0 else round1 (weightChange / weeksPassed)

/-- The object returned by `calculateTimeToGoal`; the `achieved` key is
absent in the null branch, and dates are day numbers. -/
structure TimeToGoal where
  weeksRemaining : Option ℤ
  estimatedDate : Option ℤ
  achieved : Option Bool
deriving DecidableEq

/-- `calculateTimeToGoal(currentWeight, goalWeight, avgWeeklyLoss)`.  The
source calls `new Date()`; that read of the system clock is made explicit
as the `now` parameter (the current day number), and
`estimatedDate.setDate(getDate() + weeksRemaining * 7)` becomes
`now + weeksRemaining * 7`. -/
def calculateTimeToGoal (currentWeight goalWeight avgWeeklyLoss : ℚ) (now : ℤ) : TimeToGoal :=
  if currentWeight = 0 ∨ goalWeight = 0 ∨ 0 ≤ avgWeeklyLoss then
    { weeksRemaining := none, estimatedDate := none, achieved := none }
  else
    let weightToLose := currentWeight - goalWeight
    if weightToLose ≤ 0 then
      { weeksRemaining := some 0, estimatedDate := some now, achieved := some true }
    else
      let weeksRemaining := ⌈weightToLose / |avgWeeklyLoss|⌉
      { weeksRemaining := some weeksRemaining,
        estimatedDate := some (now + weeksRemaining * 7),
        achieved := some false }

/-! ## Specification-side definitions

These restate, in the specification's own words, the quantities the claims
talk about; the theorems below compare them with the source functions. -/

/-- The window `W` of the spec: the first `min(7, length)` daily entries. -/
def windowW (dailyEntries : List DailyEntry) : List DailyEntry :=
  dailyEntries.take (min 7 dailyEntries.length)

/-- Spec step 2: `avgCalories` = mean of `calories.total` over `W`, rounded
to the nearest integer. -/
def specAvgCalories (W : List DailyEntry) : ℤ :=
  jsRound ((W.map entryTotal).sum / W.length)

/-- Spec step 3: unrounded mean over `W` of the exercise-calorie estimate
computed with the current weight. -/
def specAvgExerciseCalories (currentWeight : ℚ) (W : List DailyEntry) : ℚ :=
  ((W.map (fun e => ((calculateExerciseCalories (some currentWeight) e : ℤ) : ℚ))).sum)
    / W.length

/-- Spec step 4's BMR term as a number (0 when the BMR is null). -/
def specBmr (currentWeight : ℚ) (p : Profile) : ℚ :=
  (calculateBMR (some currentWeight) p.height p.age p.gender).getD 0

/-- Spec step 6's TDEE term as a number (0 when the TDEE is null). -/
def specTdee (currentWeight : ℚ) (p : Profile) (W : List DailyEntry) : ℚ :=
  (calculateTDEE (calculateBMR (some currentWeight) p.height p.age p.gender)
    (getWeeklyActivityLevel W)).getD 0

/-- Spec step 7: `dailyBalance = avgCalories − (tdeeVal + avgExerciseCalories)`. -/
def specDailyBalance (currentWeight : ℚ) (p : Profile) (W : List DailyEntry) : ℚ :=
  (specAvgCalories W : ℚ)
    - (specTdee currentWeight p W + specAvgExerciseCalories currentWeight W)

/-- Spec step 10: `confidence = min(n / 7, 1)`. -/
def specConfidence (n : ℕ) : ℚ := min ((n : ℚ) / 7) 1

/-- Spec steps 8-12 composed: `currentWeight + ((dailyBalance / 7700) × 7) ×
confidence × 0.9`, rounded to one decimal place. -/
def specPredictedWeight (currentWeight : ℚ) (p : Profile) (W : List DailyEntry) : ℚ :=
  round1 (currentWeight
    + (specDailyBalance currentWeight p W / 7700 * 7) * specConfidence W.length * (9/10))

/-- Claim C5's count of DISTINCT exercise tags of a day's workout. -/
def distinctExerciseCount (e : DailyEntry) : ℕ :=
  match e.workout with
  | some w => w.exercises.dedup.length
  | none => 0

/-- Claim C5's score, counting distinct exercise tags per workout day. -/
def distinctTagScore (weeklyEntries : List DailyEntry) : ℚ :=
  10 * (((weeklyEntries.filter workoutCompleted).length : ℕ) : ℚ)
    + 5 * ((weeklyEntries.filter runningCompleted).map runDistance).sum
    + 2 * ((((weeklyEntries.filter workoutCompleted).map distinctExerciseCount).sum : ℕ) : ℚ)

/-- The activity score actually used by the source, counting the listed
exercise tags with multiplicity. -/
def activityScore (weeklyEntries : List DailyEntry) : ℚ :=
  10 * (((weeklyEntries.filter workoutCompleted).length : ℕ) : ℚ)
    + 5 * ((weeklyEntries.filter runningCompleted).map runDistance).sum
    + 2 * ((((weeklyEntries.filter workoutCompleted).map exerciseCount).sum : ℕ) : ℚ)

/-- The spec's threshold table, highest first. -/
def levelOfScore (score : ℚ) : String :=
  if 100 ≤ score then "veryActive"
  else if 70 ≤ score then "active"
  else if 40 ≤ score then "moderate"
  else if 15 ≤ score then "light"
  else "sedentary"

/-- Claim C5's activity-level inference, word for word: empty week is
sedentary, otherwise the distinct-tag score mapped through the
thresholds. -/
def inferActivityLevelSpec (weeklyEntries : List DailyEntry) : String :=
  if weeklyEntries = [] then "sedentary"
  else levelOfScore (distinctTagScore weeklyEntries)

/-- Claim C6's strength-training component: average MET of the selected
tags (unknown tag counts as 3.5) × weight × 45 / 60, when the workout is
completed with a non-empty tag set. -/
def strengthComponent (w : ℚ) (e : DailyEntry) : ℚ :=
  match e.workout with
  | some wk =>
      if wk.completed ∧ wk.exercises ≠ [] then
        (((wk.exercises.map (fun ex => (MET_VALUES ex).getD (7/2))).sum)
            / wk.exercises.length) * w * 45 / 60
      else 0
  | none => 0

/-- Claim C6's running component: 9.8 × weight × (distanceKm × 10) / 60,
when running is completed. -/
def runComponent (w : ℚ) (e : DailyEntry) : ℚ :=
  match e.running with
  | some r => if r.completed then (49/5) * w * (r.distance.getD 0 * 10) / 60 else 0
  | none => 0

/-! ## Helper lemmas -/

lemma windowW_length (es : List DailyEntry) : (windowW es).length = min 7 es.length := by
  rw [windowW, List.length_take, min_assoc, min_self]

lemma windowW_length_le (es : List DailyEntry) : (windowW es).length ≤ 7 := by
  rw [windowW_length]; exact min_le_left _ _

lemma windowW_ne_nil (es : List DailyEntry) (h : es ≠ []) : windowW es ≠ [] := by
  have h1 : 0 < es.length := List.length_pos.2 h
  have h2 : 0 < (windowW es).length := by
    rw [windowW_length]; exact lt_min_iff.2 ⟨by norm_num, h1⟩
  exact List.length_pos.1 h2

lemma calculateAverages_avgCalories (l : List DailyEntry)
    (h7 : l.length ≤ 7) (hne : l ≠ []) :
    (calculateAverages l 7).avgCalories = jsRound ((l.map entryTotal).sum / l.length) := by
  have hlen : ¬ l.length = 0 := by simpa using hne
  simp only [calculateAverages, if_neg hlen]
  rw [List.take_of_length_le h7]

lemma jsRound_nonneg (q : ℚ) (h : 0 ≤ q) : 0 ≤ jsRound q :=
  Int.floor_nonneg.2 (by linarith)

lemma met_getD_nonneg (s : String) (d : ℚ) (hd : 0 ≤ d) : 0 ≤ (MET_VALUES s).getD d := by
  unfold MET_VALUES
  split_ifs <;> simp <;> norm_num
  exact hd

lemma predictWeight_eq_zeroPrediction (profile : Option Profile)
    (dailyEntries : List DailyEntry) (currentWeight : Option ℚ)
    (h : profile = none ∨ falsy currentWeight = true ∨ dailyEntries = []) :
    predictWeight profile dailyEntries currentWeight = zeroPrediction currentWeight := by
  cases profile with
  | none => rfl
  | some p =>
      rcases h with h | h
      · simp at h
      · simp only [predictWeight]
        rw [if_pos h]

/-! ## Claim theorems -/

/-- C2: whenever the profile is missing, the current weight is
missing/falsy, or the daily-entry list is empty, `predictWeight` returns
the zeroed prediction whose `predictedWeight` is the input `currentWeight`
unchanged and whose energy fields and confidence are all 0.  (The function
is total, so no exception can be raised.) -/
theorem predictWeight_degenerate (profile : Option Profile)
    (dailyEntries : List DailyEntry) (currentWeight : Option ℚ)
    (h : profile = none ∨ falsy currentWeight = true ∨ dailyEntries = []) :
    (predictWeight profile dailyEntries currentWeight).predictedWeight = currentWeight
    ∧ (predictWeight profile dailyEntries currentWeight).dailyBalance = 0
    ∧ (predictWeight profile dailyEntries currentWeight).tdee = 0
    ∧ (predictWeight profile dailyEntries currentWeight).bmr = 0
    ∧ (predictWeight profile dailyEntries currentWeight).avgExerciseCalories = 0
    ∧ (predictWeight profile dailyEntries currentWeight).confidence = 0 := by
  rw [predictWeight_eq_zeroPrediction profile dailyEntries currentWeight h]
  simp [zeroPrediction]

/-- Witness for C2 at a concrete input: missing profile, current weight
70. -/
theorem predictWeight_degenerate_witness :
    (predictWeight none [] (some 70)).predictedWeight = some 70
    ∧ (predictWeight none [] (some 70)).confidence = 0 := by
  have h := predictWeight_degenerate none [] (some 70) (Or.inl rfl)
  exact ⟨h.1, h.2.2.2.2.2⟩

/-- C3 (counterexample): the degenerate return of `predictWeight` does NOT
contain all eight output fields — at the concrete input (no profile, no
entries, no weight) the keys `activityLevel` and `daysOfData` are absent. -/
theorem predictWeight_degenerate_missing_fields :
    ((predictWeight none [] none).activityLevel).isSome = false
    ∧ ((predictWeight none [] none).daysOfData).isSome = false := by
  constructor <;> rfl

/-- C3 (amended): a non-degenerate call returns all eight fields, while the
degenerate branch omits `activityLevel` and `daysOfData` (its six remaining
fields are those of the zeroed prediction). -/
theorem predictWeight_fields (profile : Option Profile)
    (dailyEntries : List DailyEntry) (currentWeight : Option ℚ) :
    (profile = none ∨ falsy currentWeight = true ∨ dailyEntries = [] →
      (predictWeight profile dailyEntries currentWeight).activityLevel = none
      ∧ (predictWeight profile dailyEntries currentWeight).daysOfData = none)
    ∧ (profile ≠ none → falsy currentWeight = false → dailyEntries ≠ [] →
      ((predictWeight profile dailyEntries currentWeight).activityLevel).isSome = true
      ∧ ((predictWeight profile dailyEntries currentWeight).daysOfData).isSome = true
      ∧ ((predictWeight profile dailyEntries currentWeight).predictedWeight).isSome = true) := by
  constructor
  · intro h
    rw [predictWeight_eq_zeroPrediction profile dailyEntries currentWeight h]
    exact ⟨rfl, rfl⟩
  · intro hp hw hes
    cases profile with
    | none => exact absurd rfl hp
    | some p =>
        have hcond : ¬(falsy currentWeight = true ∨ dailyEntries = []) := by
          simp [hw, hes]
        simp only [predictWeight]
        rw [if_neg hcond]
        exact ⟨rfl, rfl, rfl⟩

/-- Witness for C3 at concrete inputs: one degenerate call with the two
keys absent, one non-degenerate call with `daysOfData` present. -/
theorem predictWeight_fields_witness :
    (predictWeight none [] none).activityLevel = none
    ∧ ((predictWeight (some ⟨some 165, some 30, "female"⟩)
        [⟨some ⟨some 2000⟩, none, none⟩] (some 70)).daysOfData).isSome = true := by
  constructor
  · exact ((predictWeight_fields none [] none).1 (Or.inl rfl)).1
  · exact ((predictWeight_fields (some ⟨some 165, some 30, "female"⟩)
        [⟨some ⟨some 2000⟩, none, none⟩] (some 70)).2
      (by simp) (by norm_num [falsy]) (by simp)).2.1

/-- C4 (counterexample): the claim's concrete example is wrong on the code:
for weight 70 kg, height 165 cm, age 30, female, `calculateBMR` returns
1420.25, not 667.5. -/
theorem calculateBMR_example_refuted :
    calculateBMR (some 70) (some 165) (some 30) "female" ≠ some ((1335 : ℚ)/2) := by
  norm_num [calculateBMR, falsy]

/-- C4 (amended): `calculateBMR` is null exactly when weight, height or age
is missing/zero; otherwise it is the Mifflin-St Jeor value (base − 161 for
female, base + 5 for any other sex), and the example input
(70, 165, 30, female) yields 1420.25. -/
theorem calculateBMR_spec :
    (∀ (weight height age : Option ℚ) (gender : String),
      calculateBMR weight height age gender = none ↔
        falsy weight = true ∨ falsy height = true ∨ falsy age = true)
    ∧ (∀ (w h a : ℚ) (gender : String), w ≠ 0 → h ≠ 0 → a ≠ 0 →
        calculateBMR (some w) (some h) (some a) gender =
          some (if gender = "female" then 10*w + (25/4)*h - 5*a - 161
            else 10*w + (25/4)*h - 5*a + 5))
    ∧ calculateBMR (some 70) (some 165) (some 30) "female" = some ((5681 : ℚ)/4) := by
  refine ⟨?_, ?_, ?_⟩
  · intro weight height age gender
    rw [calculateBMR]
    by_cases hc : (falsy weight || falsy height || falsy age) = true
    · rw [if_pos hc]
      simp only [Bool.or_eq_true, or_assoc] at hc
      simp [hc]
    · rw [if_neg hc]
      simp only [Bool.or_eq_true, not_or, Bool.not_eq_true] at hc
      obtain ⟨⟨h1, h2⟩, h3⟩ := hc
      constructor
      · intro hnone
        split_ifs at hnone
      · intro hor
        rcases hor with h' | h' | h'
        · rw [h1] at h'; exact absurd h' Bool.false_ne_true
        · rw [h2] at h'; exact absurd h' Bool.false_ne_true
        · rw [h3] at h'; exact absurd h' Bool.false_ne_true
  · intro w h a gender hw hh ha
    have hfw : falsy (some w) = false := by simp [falsy, hw]
    have hfh : falsy (some h) = false := by simp [falsy, hh]
    have hfa : falsy (some a) = false := by simp [falsy, ha]
    rw [calculateBMR, hfw, hfh, hfa]
    simp only [Bool.or_self]
    rw [if_neg Bool.false_ne_true]
    split_ifs <;> rfl
  · norm_num [calculateBMR, falsy]

/-- Witness for C4's amended formula at a concrete input:
(70, 165, 30, male) gives 1586.25. -/
theorem calculateBMR_spec_witness :
    calculateBMR (some 70) (some 165) (some 30) "male" = some ((6345 : ℚ)/4) := by
  have h := calculateBMR_spec.2.1 70 165 30 "male"
    (by norm_num) (by norm_num) (by norm_num)
  rw [h, if_neg (by simp : ¬ ("male" : String) = "female")]
  norm_num

/-- C8: `calculateTimeToGoal` yields null `weeksRemaining` and
`estimatedDate` exactly unless both weights are non-falsy and the average
weekly loss is negative; with those, an already-met goal reports achieved
with zero weeks, otherwise `ceil((current − goal) / |avgWeeklyLoss|)` weeks
and not achieved; the claim's two examples included.  The `now` argument is
the system clock read by the source's `new Date()`. -/
theorem calculateTimeToGoal_spec (currentWeight goalWeight avgWeeklyLoss : ℚ) (now : ℤ) :
    ((calculateTimeToGoal currentWeight goalWeight avgWeeklyLoss now).weeksRemaining = none
      ∧ (calculateTimeToGoal currentWeight goalWeight avgWeeklyLoss now).estimatedDate = none
      ↔ currentWeight = 0 ∨ goalWeight = 0 ∨ 0 ≤ avgWeeklyLoss)
    ∧ (currentWeight ≠ 0 → goalWeight ≠ 0 → avgWeeklyLoss < 0 →
        currentWeight ≤ goalWeight →
        (calculateTimeToGoal currentWeight goalWeight avgWeeklyLoss now).achieved = some true
        ∧ (calculateTimeToGoal currentWeight goalWeight avgWeeklyLoss now).weeksRemaining
            = some 0)
    ∧ (currentWeight ≠ 0 → goalWeight ≠ 0 → avgWeeklyLoss < 0 →
        goalWeight < currentWeight →
        (calculateTimeToGoal currentWeight goalWeight avgWeeklyLoss now).achieved = some false
        ∧ (calculateTimeToGoal currentWeight goalWeight avgWeeklyLoss now).weeksRemaining
            = some ⌈(currentWeight - goalWeight) / |avgWeeklyLoss|⌉)
    ∧ (calculateTimeToGoal 80 70 (-1) now).weeksRemaining = some 10
    ∧ (calculateTimeToGoal 80 70 (-1) now).achieved = some false
    ∧ (calculateTimeToGoal 68 70 (-1) now).weeksRemaining = some 0
    ∧ (calculateTimeToGoal 68 70 (-1) now).achieved = some true := by
  refine ⟨?_, ?_, ?_, ?_, ?_, ?_, ?_⟩
  · simp only [calculateTimeToGoal]
    by_cases hc : currentWeight = 0 ∨ goalWeight = 0 ∨ 0 ≤ avgWeeklyLoss
    · rw [if_pos hc]
      simp [hc]
    · rw [if_neg hc]
      split_ifs <;> simp [hc]
  · intro h1 h2 h3 h4
    rw [calculateTimeToGoal, if_neg (by push_neg; exact ⟨h1, h2, h3⟩),
      if_pos (by linarith : currentWeight - goalWeight ≤ 0)]
    exact ⟨rfl, rfl⟩
  · intro h1 h2 h3 h4
    rw [calculateTimeToGoal, if_neg (by push_neg; exact ⟨h1, h2, h3⟩),
      if_neg (by push_neg; linarith : ¬ currentWeight - goalWeight ≤ 0)]
    exact ⟨rfl, rfl⟩
  · rw [calculateTimeToGoal, if_neg (by norm_num), if_neg (by norm_num)]
    norm_num
  · rw [calculateTimeToGoal, if_neg (by norm_num), if_neg (by norm_num)]
  · rw [calculateTimeToGoal, if_neg (by norm_num), if_pos (by norm_num)]
  · rw [calculateTimeToGoal, if_neg (by norm_num), if_pos (by norm_num)]

/-- Witness for C8 at concrete inputs: both example calls, with the clock
at day 3. -/
theorem calculateTimeToGoal_spec_witness :
    (calculateTimeToGoal 68 70 (-1) 3).achieved = some true
    ∧ (calculateTimeToGoal 80 70 (-1) 3).achieved = some false := by
  refine ⟨((calculateTimeToGoal_spec 68 70 (-1) 3).2.1
      (by norm_num) (by norm_num) (by norm_num) (by norm_num)).1, ?_⟩
  exact ((calculateTimeToGoal_spec 80 70 (-1) 3).2.2.1
      (by norm_num) (by norm_num) (by norm_num) (by norm_num)).1

/-- C9 (counterexample): `calculateTimeToGoal` is NOT a deterministic
function of its three declared arguments alone — it reads the system clock
(`new Date()`, the `now` parameter of the model): the same arguments at
clock 0 and clock 1 give different `estimatedDate`s. -/
theorem calculateTimeToGoal_clock_dependent :
    calculateTimeToGoal 80 70 (-1) 0 ≠ calculateTimeToGoal 80 70 (-1) 1 := by
  intro h
  have h2 := congrArg TimeToGoal.estimatedDate h
  rw [show (calculateTimeToGoal 80 70 (-1) 0).estimatedDate = some 70 by
      rw [calculateTimeToGoal, if_neg (by norm_num), if_neg (by norm_num)]
      norm_num,
    show (calculateTimeToGoal 80 70 (-1) 1).estimatedDate = some 71 by
      rw [calculateTimeToGoal, if_neg (by norm_num), if_neg (by norm_num)]
      norm_num] at h2
  exact absurd h2 (by simp)

/-- C9 (amended): every function of the engine is a pure function of its
arguments once the clock is passed explicitly; in particular the
`weeksRemaining` and `achieved` fields of `calculateTimeToGoal` depend only
on the three declared arguments (only `estimatedDate` depends on the
clock). -/
theorem calculateTimeToGoal_clock_independent_fields
    (currentWeight goalWeight avgWeeklyLoss : ℚ) (n1 n2 : ℤ) :
    (calculateTimeToGoal currentWeight goalWeight avgWeeklyLoss n1).weeksRemaining
      = (calculateTimeToGoal currentWeight goalWeight avgWeeklyLoss n2).weeksRemaining
    ∧ (calculateTimeToGoal currentWeight goalWeight avgWeeklyLoss n1).achieved
      = (calculateTimeToGoal currentWeight goalWeight avgWeeklyLoss n2).achieved := by
  simp only [calculateTimeToGoal]
  split_ifs <;> exact ⟨rfl, rfl⟩

/-- C5 (counterexample): the score does NOT count distinct exercise tags.
One workout day whose tag list is `["abs","abs","abs"]` scores
10 + 2·3 = 16 in the code (→ light) but 10 + 2·1 = 12 under the claim's
distinct-tag reading (→ sedentary). -/
theorem getWeeklyActivityLevel_not_distinct :
    getWeeklyActivityLevel [⟨none, some ⟨true, ["abs", "abs", "abs"]⟩, none⟩] = "light"
    ∧ inferActivityLevelSpec [⟨none, some ⟨true, ["abs", "abs", "abs"]⟩, none⟩] = "sedentary"
    ∧ getWeeklyActivityLevel [⟨none, some ⟨true, ["abs", "abs", "abs"]⟩, none⟩]
        ≠ inferActivityLevelSpec [⟨none, some ⟨true, ["abs", "abs", "abs"]⟩, none⟩] := by
  have h1 : getWeeklyActivityLevel [⟨none, some ⟨true, ["abs", "abs", "abs"]⟩, none⟩]
      = "light" := by
    norm_num [getWeeklyActivityLevel, workoutCompleted, runningCompleted, runDistance,
      exerciseCount, List.filter]
  have h2 : inferActivityLevelSpec [⟨none, some ⟨true, ["abs", "abs", "abs"]⟩, none⟩]
      = "sedentary" := by
    norm_num [inferActivityLevelSpec, distinctTagScore, levelOfScore, workoutCompleted,
      runningCompleted, runDistance, distinctExerciseCount, List.filter, List.dedup,
      List.pwFilter]
  exact ⟨h1, h2, by rw [h1, h2]; simp⟩

/-- C5 (amended): the activity level is `sedentary` on an empty week and
otherwise maps the score 10×(workout days) + 5×(run km) + 2×(number of
LISTED exercise tags, with multiplicity) through the thresholds
≥100 veryActive, ≥70 active, ≥40 moderate, ≥15 light. -/
theorem getWeeklyActivityLevel_spec (weeklyEntries : List DailyEntry) :
    getWeeklyActivityLevel weeklyEntries
      = if weeklyEntries = [] then "sedentary"
        else levelOfScore (activityScore weeklyEntries) := by
  by_cases hes : weeklyEntries = []
  · subst hes; simp [getWeeklyActivityLevel]
  · have hlen : ¬ weeklyEntries.length = 0 := by simpa using hes
    rw [if_neg hes]
    simp only [getWeeklyActivityLevel, if_neg hlen, levelOfScore]
    have hsc : (((weeklyEntries.filter workoutCompleted).length : ℕ) : ℚ) * 10
        + ((weeklyEntries.filter runningCompleted).map runDistance).sum * 5
        + ((((weeklyEntries.filter workoutCompleted).map exerciseCount).sum : ℕ) : ℚ) * 2
        = activityScore weeklyEntries := by
      rw [activityScore]; ring
    rw [← hsc]

/-- C6 helper: on a non-falsy weight the code equals the rounded sum of
the claim's two components. -/
lemma calculateExerciseCalories_eq (w : ℚ) (e : DailyEntry) (hw : w ≠ 0) :
    calculateExerciseCalories (some w) e
      = jsRound (strengthComponent w e + runComponent w e) := by
  have hfw : falsy (some w) = false := by simp [falsy, hw]
  rcases e with ⟨c, wo, ru⟩
  simp only [calculateExerciseCalories, strengthComponent, runComponent, hfw,
    WORKOUT_DURATION, MET_VALUES]
  rw [if_neg Bool.false_ne_true]
  cases wo with
  | none =>
      cases ru with
      | none => simp
      | some r =>
          by_cases hrc : r.completed <;>
            simp [hrc, Option.getD]
  | some wk =>
      by_cases hwc : wk.completed
      · by_cases hex : wk.exercises = []
        · cases ru with
          | none => simp [hwc, hex]
          | some r => by_cases hrc : r.completed <;> simp [hwc, hex, hrc]
        · have hlen : 0 < wk.exercises.length := List.length_pos.2 hex
          cases ru with
          | none => simp [hwc, hex, hlen]
          | some r => by_cases hrc : r.completed <;> simp [hwc, hex, hlen, hrc]
      · cases ru with
        | none => simp [hwc]
        | some r => by_cases hrc : r.completed <;> simp [hwc, hrc]

/-- C6 helper: the result is nonnegative for nonnegative weight and
running distance. -/
lemma calculateExerciseCalories_nonneg (w : ℚ) (e : DailyEntry)
    (hw : 0 ≤ w) (hd : 0 ≤ runDistance e) :
    0 ≤ calculateExerciseCalories (some w) e := by
  by_cases hw0 : w = 0
  · subst hw0
    simp [calculateExerciseCalories, falsy]
  · rw [calculateExerciseCalories_eq w e hw0]
    apply jsRound_nonneg
    have hs : 0 ≤ strengthComponent w e := by
      rw [strengthComponent]
      rcases e with ⟨c, wo, ru⟩
      cases wo with
      | none => exact le_refl 0
      | some wk =>
          dsimp only
          split_ifs with hcond
          · apply div_nonneg _ (by norm_num)
            apply mul_nonneg (mul_nonneg _ hw) (by norm_num)
            apply div_nonneg _ (Nat.cast_nonneg _)
            apply List.sum_nonneg
            intro x hx
            obtain ⟨ex, _hex, rfl⟩ := List.mem_map.1 hx
            exact met_getD_nonneg ex (7/2) (by norm_num)
          · exact le_refl 0
    have hr : 0 ≤ runComponent w e := by
      rw [runComponent]
      rcases e with ⟨c, wo, ru⟩
      cases ru with
      | none => exact le_refl 0
      | some r =>
          dsimp only
          split_ifs with hcond
          · have hd' : 0 ≤ r.distance.getD 0 := by
              simpa [runDistance] using hd
            apply div_nonneg _ (by norm_num)
            apply mul_nonneg (mul_nonneg (by norm_num) hw) (by linarith)
          · exact le_refl 0
    linarith

/-- C6 (amended): `calculateExerciseCalories` returns 0 on a falsy weight,
otherwise the nearest-integer rounding of the claim's strength component
plus running component; the result is ≥ 0 whenever the weight and the
running distance are nonnegative (the claim's unconditional "≥ 0" fails
for negative weights); and the MET table holds the claim's exact values. -/
theorem exerciseCalories_spec :
    (∀ (weight : Option ℚ) (e : DailyEntry),
      falsy weight = true → calculateExerciseCalories weight e = 0)
    ∧ (∀ (w : ℚ) (e : DailyEntry), w ≠ 0 →
        calculateExerciseCalories (some w) e
          = jsRound (strengthComponent w e + runComponent w e))
    ∧ (∀ (w : ℚ) (e : DailyEntry), 0 ≤ w → 0 ≤ runDistance e →
        0 ≤ calculateExerciseCalories (some w) e)
    ∧ MET_VALUES "bicep/tricep" = some (7/2) ∧ MET_VALUES "shoulder" = some (7/2)
    ∧ MET_VALUES "back" = some 4 ∧ MET_VALUES "chest" = some 4
    ∧ MET_VALUES "booty" = some (9/2) ∧ MET_VALUES "leg" = some (9/2)
    ∧ MET_VALUES "abs" = some 3 ∧ MET_VALUES "running" = some (49/5) := by
  refine ⟨?_, calculateExerciseCalories_eq, calculateExerciseCalories_nonneg,
    ?_, ?_, ?_, ?_, ?_, ?_, ?_, ?_⟩
  · intro weight e h
    rw [calculateExerciseCalories, if_pos h]
  all_goals simp [MET_VALUES]

/-- C6 (counterexample): with a negative (truthy) weight the result is
negative — weight −70 kg with a completed 5 km run yields −572 — so the
claim's unconditional "the result is ≥ 0" is false. -/
theorem exerciseCalories_negative_weight :
    calculateExerciseCalories (some (-70)) ⟨none, none, some ⟨true, some 5⟩⟩ = -572
    ∧ (calculateExerciseCalories (some (-70)) ⟨none, none, some ⟨true, some 5⟩⟩ < 0) := by
  have h : calculateExerciseCalories (some (-70)) ⟨none, none, some ⟨true, some 5⟩⟩
      = -572 := by
    simp [calculateExerciseCalories, falsy, MET_VALUES, jsRound]
    norm_num
  exact ⟨h, by rw [h]; norm_num⟩

/-- Witness for C6's amended theorem at the spec's own example: weight 70,
completed chest workout, no run — 4.0×70×45/60 = 210, and nonnegative. -/
theorem exerciseCalories_spec_witness :
    calculateExerciseCalories (some 70) ⟨none, some ⟨true, ["chest"]⟩, some ⟨false, none⟩⟩
      = jsRound (strengthComponent 70 ⟨none, some ⟨true, ["chest"]⟩, some ⟨false, none⟩⟩
          + runComponent 70 ⟨none, some ⟨true, ["chest"]⟩, some ⟨false, none⟩⟩)
    ∧ 0 ≤ calculateExerciseCalories (some 70)
        ⟨none, some ⟨true, ["chest"]⟩, some ⟨false, none⟩⟩
    ∧ calculateExerciseCalories (some 70)
        ⟨none, some ⟨true, ["chest"]⟩, some ⟨false, none⟩⟩ = 210 := by
  refine ⟨exerciseCalories_spec.2.1 70 _ (by norm_num),
    exerciseCalories_spec.2.2.1 70 _ (by norm_num) (by norm_num [runDistance]), ?_⟩
  simp [calculateExerciseCalories, falsy, MET_VALUES, jsRound, WORKOUT_DURATION]
  norm_num

/-- The non-degenerate branch of `predictWeight`, with every output field
rewritten in the specification's terms. -/
lemma predictWeight_main (p : Profile) (es : List DailyEntry) (w : ℚ)
    (hw : w ≠ 0) (hes : es ≠ []) :
    predictWeight (some p) es (some w) =
      { predictedWeight := some (specPredictedWeight w p (windowW es))
        dailyBalance := jsRound (specDailyBalance w p (windowW es))
        tdee := jsRound (specTdee w p (windowW es))
        bmr := jsRound (specBmr w p)
        avgExerciseCalories := jsRound (specAvgExerciseCalories w (windowW es))
        activityLevel := some (getWeeklyActivityLevel (windowW es))
        confidence := jsRound (specConfidence (windowW es).length * 100)
        daysOfData := some (windowW es).length } := by
  have hfw : falsy (some w) = false := by simp [falsy, hw]
  have hcond : ¬(falsy (some w) = true ∨ es = []) := by simp [hfw, hes]
  have havg := calculateAverages_avgCalories (windowW es)
    (windowW_length_le es) (windowW_ne_nil es hes)
  simp only [windowW] at havg
  simp only [predictWeight]
  rw [if_neg hcond]
  simp only [windowW, specPredictedWeight, specDailyBalance, specAvgCalories, specTdee,
    specBmr, specAvgExerciseCalories, specConfidence, round1, CALORIES_PER_KG,
    Option.getD_some]
  rw [havg]
  congr 1
  exact congrArg (fun z : ℤ => some ((z : ℚ)/10)) (congrArg jsRound (by ring))

/-- C1: for a profile with non-falsy height and age, a non-empty entry
list and a nonzero current weight, `predictWeight` returns exactly the
spec's formula: `predictedWeight = round1(currentWeight + ((avgCalories −
(tdee + avgExerciseCalories)) / 7700 × 7) × min(|W|/7, 1) × 0.9)` over the
window `W` of the first `min(7, length)` entries, with `dailyBalance`,
`tdee`, `bmr` and `avgExerciseCalories` reported rounded to the nearest
integer. -/
theorem predictWeight_formula (p : Profile) (es : List DailyEntry) (w : ℚ)
    (_hh : falsy p.height = false) (_ha : falsy p.age = false)
    (hw : w ≠ 0) (hes : es ≠ []) :
    (predictWeight (some p) es (some w)).predictedWeight
        = some (specPredictedWeight w p (windowW es))
    ∧ (predictWeight (some p) es (some w)).dailyBalance
        = jsRound (specDailyBalance w p (windowW es))
    ∧ (predictWeight (some p) es (some w)).tdee = jsRound (specTdee w p (windowW es))
    ∧ (predictWeight (some p) es (some w)).bmr = jsRound (specBmr w p)
    ∧ (predictWeight (some p) es (some w)).avgExerciseCalories
        = jsRound (specAvgExerciseCalories w (windowW es)) := by
  rw [predictWeight_main p es w hw hes]
  exact ⟨rfl, rfl, rfl, rfl, rfl⟩

/-- Witness for C1 at a concrete input (165 cm, 30 y, female, one day of
2000 kcal, 70 kg), together with the evaluated result 70.0 kg. -/
theorem predictWeight_formula_witness :
    (predictWeight (some ⟨some 165, some 30, "female"⟩)
        [⟨some ⟨some 2000⟩, none, none⟩] (some 70)).predictedWeight
      = some (specPredictedWeight 70 ⟨some 165, some 30, "female"⟩
          (windowW [⟨some ⟨some 2000⟩, none, none⟩]))
    ∧ (predictWeight (some ⟨some 165, some 30, "female"⟩)
        [⟨some ⟨some 2000⟩, none, none⟩] (some 70)).predictedWeight = some 70 := by
  constructor
  · exact (predictWeight_formula ⟨some 165, some 30, "female"⟩
      [⟨some ⟨some 2000⟩, none, none⟩] 70
      (by norm_num [falsy]) (by norm_num [falsy]) (by norm_num) (by simp)).1
  · simp [predictWeight, zeroPrediction, calculateAverages, calculateBMR, calculateTDEE,
      getWeeklyActivityLevel, calculateExerciseCalories, falsy, activityMultipliers,
      workoutCompleted, runningCompleted, runDistance, exerciseCount, entryTotal,
      jsRound, round1, CALORIES_PER_KG, min_def]
    norm_num

/-- C7: in every non-degenerate call the reported confidence is
`round(min(n/7, 1) × 100)` for `n` the size of the (≤ 7) window, the
internal confidence lies in [0, 1], equals 1 exactly when `n ≥ 7`, and is
strictly increasing in `n` below 7. -/
theorem predictWeight_confidence (p : Profile) (es : List DailyEntry) (w : ℚ)
    (hw : w ≠ 0) (hes : es ≠ []) :
    (predictWeight (some p) es (some w)).confidence
        = jsRound (specConfidence (windowW es).length * 100)
    ∧ (predictWeight (some p) es (some w)).daysOfData = some (windowW es).length
    ∧ 0 ≤ specConfidence (windowW es).length
    ∧ specConfidence (windowW es).length ≤ 1
    ∧ (windowW es).length ≤ 7
    ∧ (∀ n : ℕ, specConfidence n = 1 ↔ 7 ≤ n)
    ∧ (∀ n : ℕ, n < 7 → specConfidence n < specConfidence (n + 1)) := by
  rw [predictWeight_main p es w hw hes]
  refine ⟨rfl, rfl, ?_, ?_, windowW_length_le es, ?_, ?_⟩
  · exact le_min (by positivity) (by norm_num)
  · exact min_le_right _ _
  · intro n
    rw [specConfidence, min_eq_right_iff, one_le_div (by norm_num : (0:ℚ) < 7)]
    exact_mod_cast Iff.rfl
  · intro n hn
    have h1 : specConfidence n = (n : ℚ)/7 := by
      rw [specConfidence]
      apply min_eq_left
      rw [div_le_one (by norm_num : (0:ℚ) < 7)]
      exact_mod_cast hn.le
    rw [h1, specConfidence]
    apply lt_min
    · rw [div_lt_div_iff_of_pos_right (by norm_num : (0:ℚ) < 7)]
      exact_mod_cast Nat.lt_succ_self n
    · rw [div_lt_one (by norm_num : (0:ℚ) < 7)]
      exact_mod_cast hn

/-- Witness for C7 at a concrete one-day input: confidence is
`round(1/7 × 100) = 14`. -/
theorem predictWeight_confidence_witness :
    (predictWeight (some ⟨some 165, some 30, "female"⟩)
        [⟨some ⟨some 2000⟩, none, none⟩] (some 70)).confidence
      = jsRound (specConfidence
          (windowW [⟨some ⟨some 2000⟩, none, none⟩]).length * 100)
    ∧ (predictWeight (some ⟨some 165, some 30, "female"⟩)
        [⟨some ⟨some 2000⟩, none, none⟩] (some 70)).confidence = 14 := by
  constructor
  · exact (predictWeight_confidence ⟨some 165, some 30, "female"⟩
      [⟨some ⟨some 2000⟩, none, none⟩] 70 (by norm_num) (by simp)).1
  · simp [predictWeight, zeroPrediction, calculateAverages, calculateBMR, calculateTDEE,
      getWeeklyActivityLevel, calculateExerciseCalories, falsy, activityMultipliers,
      workoutCompleted, runningCompleted, runDistance, exerciseCount, entryTotal,
      jsRound, round1, CALORIES_PER_KG, min_def]
    norm_num

/-- C10: with a present profile whose height or age is falsy (null BMR), a
non-empty entry list and nonzero weight, `predictWeight` still proceeds on
the main branch (no degenerate fallback, no exception): reported `bmr` and
`tdee` are 0 and the balance is `avgCalories − avgExerciseCalories` with
the TDEE term treated as 0. -/
theorem predictWeight_null_bmr (p : Profile) (es : List DailyEntry) (w : ℚ)
    (hpa : falsy p.height = true ∨ falsy p.age = true)
    (hw : w ≠ 0) (hes : es ≠ []) :
    (predictWeight (some p) es (some w)).bmr = 0
    ∧ (predictWeight (some p) es (some w)).tdee = 0
    ∧ (predictWeight (some p) es (some w)).dailyBalance
        = jsRound ((specAvgCalories (windowW es) : ℚ)
            - specAvgExerciseCalories w (windowW es))
    ∧ (predictWeight (some p) es (some w)).daysOfData = some (windowW es).length
    ∧ (predictWeight (some p) es (some w)).activityLevel
        = some (getWeeklyActivityLevel (windowW es)) := by
  have hbmr : calculateBMR (some w) p.height p.age p.gender = none := by
    rw [calculateBMR, if_pos]
    rcases hpa with h | h <;> simp [h]
  have htdee : calculateTDEE (calculateBMR (some w) p.height p.age p.gender)
      (getWeeklyActivityLevel (windowW es)) = none := by
    rw [hbmr]
    simp [calculateTDEE, falsy]
  rw [predictWeight_main p es w hw hes]
  refine ⟨?_, ?_, ?_, rfl, rfl⟩
  · rw [specBmr, hbmr]
    norm_num [jsRound]
  · rw [specTdee, htdee]
    norm_num [jsRound]
  · rw [specDailyBalance, specTdee, htdee, Option.getD_none]
    exact congrArg jsRound (by ring)

/-- Witness for C10 at a concrete input: profile with missing height, one
2000 kcal day, weight 70 — bmr 0 and dailyBalance 2000. -/
theorem predictWeight_null_bmr_witness :
    (predictWeight (some ⟨none, some 30, "male"⟩)
        [⟨some ⟨some 2000⟩, none, none⟩] (some 70)).bmr = 0
    ∧ (predictWeight (some ⟨none, some 30, "male"⟩)
        [⟨some ⟨some 2000⟩, none, none⟩] (some 70)).dailyBalance = 2000 := by
  constructor
  · exact (predictWeight_null_bmr ⟨none, some 30, "male"⟩
      [⟨some ⟨some 2000⟩, none, none⟩] 70 (Or.inl rfl) (by norm_num) (by simp)).1
  · simp [predictWeight, zeroPrediction, calculateAverages, calculateBMR, calculateTDEE,
      getWeeklyActivityLevel, calculateExerciseCalories, falsy, activityMultipliers,
      workoutCompleted, runningCompleted, runDistance, exerciseCount, entryTotal,
      jsRound, round1, CALORIES_PER_KG, min_def]
    norm_num

end WeightTracker
